import Mathlib

/-!
# Verification of the trading-bot signal engine

Shallow embedding of the scoring pipeline of `src/bot/strategies.py`
(`TechnicalAnalysisStrategy`), the custom-entry recompute of
`src/bot/core.py` (`TradingBot.calculate_custom_entry`) and the
position-closing logic of `src/database/db_handler.py`
(`DatabaseHandler.close_position`).

Conventions of the embedding:
* Prices and volumes are modelled as exact rationals (`ℚ`); the Python
  code uses IEEE doubles, and the claims under study are about the
  algebraic structure of the computations, not rounding.
* The repository guards `import talib` and falls back to plain
  pandas/numpy arithmetic when TA-LIB is absent; the fallback branch is
  the code that lives in this repository, and it is what the spec
  describes (rolling-sum ATR, rolling-mean RSI), so that branch is what
  is embedded here.
* pandas `NaN` never reaches a computation on the paths embedded below
  (`analyze` requires at least 50 bars, so every rolling window that is
  read is full); where a division by zero would produce `NaN`/`inf` in
  Python, the embedding reproduces the branch the comparison chain
  actually takes (documented at each site).
-/

/-- One OHLCV bar (`open` is never read by the analysed code and is
omitted). Mirrors one row of the pandas dataframe. -/
structure Bar where
  high : ℚ
  low : ℚ
  close : ℚ
  volume : ℚ
deriving DecidableEq, Repr

/-- Strategy configuration: `TechnicalAnalysisStrategy.__init__`
(`atr_multiplier=1.0, entry_range_pct=0.02`). -/
structure StrategyConfig where
  atrMultiplier : ℚ
  entryRangePct : ℚ
deriving DecidableEq, Repr

/-- The default constructor arguments of `TechnicalAnalysisStrategy`. -/
def defaultCfg : StrategyConfig := ⟨1, 1 / 50⟩

/-- `series.tail(n)` of pandas: the last `n` elements. -/
def lastN {α : Type} (n : Nat) (xs : List α) : List α :=
  xs.drop (xs.length - n)

/-- `series.iloc[-k]` of pandas (the guards of the source keep the index
in range whenever the value is used; out of range defaults to 0). -/
def ilocNeg (xs : List ℚ) (k : Nat) : ℚ :=
  xs.getD (xs.length - k) 0

/-- `series.diff()` of pandas, with the leading `NaN` dropped:
`diffs [x₀, x₁, …]` is `[x₁ - x₀, x₂ - x₁, …]`. -/
def diffs : List ℚ → List ℚ
  | x :: y :: rest => (y - x) :: diffs (y :: rest)
  | _ => []

/-- Python dict assignment `d[k] = v`: replaces the first binding of `k`
in place, appends a new binding when `k` is absent (this is how the
misspelt `broadending_descending` key enters the triangle dict). -/
def dictSet : List (String × Bool) → String → Bool → List (String × Bool)
  | [], k, v => [(k, v)]
  | (k', v') :: rest, k, v =>
      if k' = k then (k, v) :: rest else (k', v') :: dictSet rest k v

/-- Python dict merge `{**a, **b}`. -/
def dictMerge (a b : List (String × Bool)) : List (String × Bool) :=
  b.foldl (fun acc p => dictSet acc p.1 p.2) a

/-- Reading a flag out of a pattern dict (`d['key']`; the source only
reads keys that are present, so a default of `false` is never hit on the
embedded paths). -/
def flag (d : List (String × Bool)) (k : String) : Bool :=
  (List.lookup k d).getD false

/-- One step of the pandas `ewm(span=s).mean()` (adjust=True) recurrence
on the pair (weighted numerator, weight sum): `a` is `1 - α`. -/
def ewmStep (a : ℚ) (p : ℚ × ℚ) (y : ℚ) : ℚ × ℚ :=
  (y + a * p.1, 1 + a * p.2)

/-- Last value of pandas `xs.ewm(span).mean()` with adjust=True:
`y_t = Σ (1-α)^i x_{t-i} / Σ (1-α)^i`, `α = 2/(span+1)`. -/
def ewmMeanLast (span : ℚ) (xs : List ℚ) : ℚ :=
  let a := 1 - 2 / (span + 1)
  match xs with
  | [] => 0
  | x :: rest =>
      let p := rest.foldl (ewmStep a) (x, 1)
      p.1 / p.2

/-- Last value of the fallback RSI of `analyze` (strategies.py:215-223):
gains/losses are rolling 14-bar simple means of the clipped diffs; the
guard `not np.isnan(rs.iloc[-1]) and loss.iloc[-1] != 0` collapses to
`loss ≠ 0` (with a full window, `rs` is `NaN` or `inf` exactly when
`loss = 0`). The leading `0` of each clipped series is
`price_diff.where(...)` applied to the `NaN` head of `diff()` (any
comparison with `NaN` is false, so the head becomes the fill value 0). -/
def rsiLast (closes : List ℚ) : ℚ :=
  let d := diffs closes
  let gains := (0 : ℚ) :: d.map (fun x => if 0 < x then x else 0)
  let losses := (0 : ℚ) :: d.map (fun x => if x < 0 then -x else 0)
  let gain := (lastN 14 gains).sum / 14
  let loss := (lastN 14 losses).sum / 14
  if loss ≠ 0 then 100 - 100 / (1 + gain / loss) else 50

/-- True ranges of all bars after the first, threaded on the previous
close: `max(high-low, |high-prevClose|, |low-prevClose|)`. -/
def trAux : Bar → List Bar → List ℚ
  | _, [] => []
  | prev, b :: bs =>
      max (b.high - b.low) (max |b.high - prev.close| |b.low - prev.close|) ::
        trAux b bs

/-- The full true-range series: for the first bar `close.shift()` is
`NaN`, `DataFrame.max(axis=1)` skips `NaN`, so its TR is `high - low`. -/
def trList : List Bar → List ℚ
  | [] => []
  | b :: bs => (b.high - b.low) :: trAux b bs

/-- `TechnicalAnalysisStrategy.calculate_atr` (strategies.py:69-84),
TA-LIB-absent branch: `true_range.rolling(14).sum() / 14` at the last
index (a full window once 14 bars exist, hence never `NaN` there). -/
def calculate_atr (df : List Bar) : ℚ :=
  if df.length < 14 then 0
  else (lastN 14 (trList df)).sum / 14

/-- `range(len(ys))` as rationals: the x-coordinates `np.polyfit` is
given. -/
def rangeQ (n : Nat) : List ℚ :=
  (List.range n).map (fun i => (Nat.cast i : ℚ))

/-- `np.polyfit(range(len(ys)), ys, 1)[0]`: the least-squares slope of
`ys` against `x = 0, …, n-1`:
`(n·Σxy - Σx·Σy) / (n·Σx² - (Σx)²)`. -/
def polyfitSlope (ys : List ℚ) : ℚ :=
  let n : ℚ := ys.length
  let xs : List ℚ := rangeQ ys.length
  let sx := xs.sum
  let sy := ys.sum
  let sxy := ((xs.zip ys).map (fun p => p.1 * p.2)).sum
  let sxx := (xs.map (fun x => x * x)).sum
  (n * sxy - sx * sy) / (n * sxx - sx * sx)

/-- Population mean of a list (`np.mean`). -/
def listMean (xs : List ℚ) : ℚ := xs.sum / xs.length

/-- Population variance of a list, the square of `np.std(xs)`. -/
def listVariance (xs : List ℚ) : ℚ :=
  ((xs.map (fun x => (x - listMean xs) ^ 2)).sum) / xs.length

/-- `np.std(xs)` (population standard deviation). -/
noncomputable def npStd (xs : List ℚ) : ℝ :=
  Real.sqrt ((listVariance xs : ℚ) : ℝ)

/-- The guard `high_std < np.std(highs) * 0.7` of
`detect_triangle_patterns` (strategies.py:114 and, on the lows, :119):
the left operand `high_std` is `np.std(highs)` itself, so the guard
compares a standard deviation with 0.7 times itself. -/
def stdTight (xs : List ℚ) : Prop :=
  npStd xs < npStd xs * (7 / 10)

instance stdTightDecidable (xs : List ℚ) : Decidable (stdTight xs) :=
  isFalse (by
    unfold stdTight npStd
    intro h
    nlinarith [Real.sqrt_nonneg (((listVariance xs : ℚ) : ℝ))])

/-- The initial (all-false) triangle dict of
`detect_triangle_patterns` (strategies.py:88-94). -/
def baseTriangle : List (String × Bool) :=
  [("symmetrical_triangle", false), ("ascending_triangle", false),
   ("descending_triangle", false), ("broadening_ascending", false),
   ("broadening_descending", false)]

/-- `TechnicalAnalysisStrategy.detect_triangle_patterns`
(strategies.py:86-128), `period = 20` as called from `analyze`. Note
line 126 of the source assigns the misspelt key
`broadending_descending`, which `dictSet` appends as a new binding. -/
def detect_triangle_patterns (df : List Bar) : List (String × Bool) :=
  if df.length < 40 then baseTriangle
  else
    let highs := lastN 20 (df.map Bar.high)
    let lows := lastN 20 (df.map Bar.low)
    let hs := polyfitSlope highs
    let ls := polyfitSlope lows
    let d1 := if 0 < |hs| ∧ 0 < |ls| ∧ hs < 0 ∧ 0 < ls ∧ |hs / ls| < 3 / 2 then
        dictSet baseTriangle "symmetrical_triangle" true else baseTriangle
    let d2 := if stdTight highs ∧ 0 < ls then
        dictSet d1 "ascending_triangle" true else d1
    let d3 := if stdTight lows ∧ hs < 0 then
        dictSet d2 "descending_triangle" true else d2
    if 0 < hs ∧ ls < 0 then dictSet d3 "broadening_ascending" true
    else if hs < 0 ∧ 0 < ls then dictSet d3 "broadending_descending" true
    else d3

/-- The initial (all-false) channel/wedge dict
(strategies.py:132-138). -/
def baseChannel : List (String × Bool) :=
  [("uptrend_channel", false), ("downtrend_channel", false),
   ("ranging_channel", false), ("rising_wedge", false),
   ("falling_wedge", false)]

/-- `TechnicalAnalysisStrategy.detect_channel_wedge_patterns`
(strategies.py:130-172), `period = 20` as called from `analyze`. -/
def detect_channel_wedge_patterns (df : List Bar) : List (String × Bool) :=
  if df.length < 40 then baseChannel
  else
    let highs := lastN 20 (df.map Bar.high)
    let lows := lastN 20 (df.map Bar.low)
    let closes := lastN 20 (df.map Bar.close)
    let hs := polyfitSlope highs
    let ls := polyfitSlope lows
    let cs := polyfitSlope closes
    let d1 := if 0 < hs ∧ 0 < ls ∧ 0 < cs then
        dictSet baseChannel "uptrend_channel" true else baseChannel
    let d2 := if hs < 0 ∧ ls < 0 ∧ cs < 0 then
        dictSet d1 "downtrend_channel" true else d1
    let d3 := if |hs| < 1 / 1000 ∧ |ls| < 1 / 1000 then
        dictSet d2 "ranging_channel" true else d2
    let d4 := if 0 < hs ∧ 0 < ls ∧ ls * (3 / 2) < hs then
        dictSet d3 "rising_wedge" true else d3
    if hs < 0 ∧ ls < 0 ∧ |hs| * (3 / 2) < |ls| then
      dictSet d4 "falling_wedge" true else d4

/-- The initial (all-false) harmonic dict (strategies.py:176-182). -/
def baseHarmonic : List (String × Bool) :=
  [("gartley", false), ("bat", false), ("butterfly", false),
   ("crab", false), ("shark", false)]

/-- `TechnicalAnalysisStrategy.detect_harmonic_patterns`
(strategies.py:174-205), `period = 50` as called from `analyze`.
When the first close of the window is 0, Python's
`price_change = (last - first) / first` is `NaN` (or `±inf`); every
comparison of the `if`/`elif` chain is then false, so the `else` branch
(`shark`) fires — the embedding takes that branch directly. -/
def detect_harmonic_patterns (df : List Bar) : List (String × Bool) :=
  if df.length < 50 then baseHarmonic
  else
    let closes := lastN 50 (df.map Bar.close)
    let c0 := closes.headD 0
    let cl := ilocNeg closes 1
    if c0 = 0 then dictSet baseHarmonic "shark" true
    else
      let pc := (cl - c0) / c0
      if |pc| < 1 / 20 then dictSet baseHarmonic "gartley" true
      else if 1 / 20 ≤ |pc| ∧ |pc| < 1 / 10 then dictSet baseHarmonic "bat" true
      else if 1 / 10 ≤ |pc| ∧ |pc| < 3 / 20 then dictSet baseHarmonic "butterfly" true
      else if 3 / 20 ≤ |pc| ∧ |pc| < 1 / 5 then dictSet baseHarmonic "crab" true
      else dictSet baseHarmonic "shark" true

/-- `TechnicalAnalysisStrategy.identify_hh_hl_lh_ll`
(strategies.py:24-52), `lookback = 20` as called from `analyze`;
returns `(hh, hl, lh, ll)`. Python's chained comparison
`a > b > c` is `a > b ∧ b > c`. -/
def identify_hh_hl_lh_ll (df : List Bar) : Bool × Bool × Bool × Bool :=
  let highs := lastN 20 (df.map Bar.high)
  let lows := lastN 20 (df.map Bar.low)
  let enough := decide (5 ≤ highs.length)
  let hh := enough && decide (ilocNeg highs 2 < ilocNeg highs 1 ∧ ilocNeg highs 3 < ilocNeg highs 2)
  let hl := enough && decide (ilocNeg lows 2 < ilocNeg lows 1 ∧ ilocNeg lows 3 < ilocNeg lows 2)
  let lh := enough && decide (ilocNeg highs 1 < ilocNeg highs 2 ∧ ilocNeg highs 2 < ilocNeg highs 3)
  let ll := enough && decide (ilocNeg lows 1 < ilocNeg lows 2 ∧ ilocNeg lows 2 < ilocNeg lows 3)
  (hh, hl, lh, ll)

/-- `TechnicalAnalysisStrategy.analyze_ema_cross` (strategies.py:54-67):
`("BULLISH", 1)` when EMA13 > EMA21 at the last bar, else
`("BEARISH", -1)`; `("NEUTRAL", 0)` under 22 bars. -/
def analyze_ema_cross (df : List Bar) : String × ℤ :=
  if df.length < 22 then ("NEUTRAL", 0)
  else
    let e13 := ewmMeanLast 13 (df.map Bar.close)
    let e21 := ewmMeanLast 21 (df.map Bar.close)
    let t := if e21 < e13 then "BULLISH" else "BEARISH"
    (t, if t = "BULLISH" then 1 else -1)

/-- `volume_ratio` of `analyze` (strategies.py:235-236):
`volume.iloc[-1] / volume.rolling(20).mean().iloc[-1]` when that mean is
positive, else the literal `1`. -/
def volumeRatioOf (df : List Bar) : ℚ :=
  let volMean := (lastN 20 (df.map Bar.volume)).sum / 20
  if 0 < volMean then ilocNeg (df.map Bar.volume) 1 / volMean else 1

/-- `trend_score` of `analyze` (strategies.py:244-252): +2 for HH∨HL,
-2 for LH∨LL, plus `ema_score`. The source adds `ema_score` in both the
BULLISH and the BEARISH branch, so the branch collapses. -/
def trendScoreOf (df : List Bar) : ℤ :=
  let s := identify_hh_hl_lh_ll df
  (if s.1 || s.2.1 then 2 else 0) + (if s.2.2.1 || s.2.2.2 then -2 else 0) +
    (analyze_ema_cross df).2

/-- `pattern_score` of `analyze` (strategies.py:254-278). The final
term is the harmonic loop: +1 for every true harmonic flag. -/
def patternScoreOf (df : List Bar) : ℤ :=
  let tri := detect_triangle_patterns df
  let cw := detect_channel_wedge_patterns df
  let harm := detect_harmonic_patterns df
  (if flag tri "ascending_triangle" then 3 else 0) +
    (if flag tri "descending_triangle" then -3 else 0) +
    (if flag tri "symmetrical_triangle" then 1 else 0) +
    (if flag cw "uptrend_channel" then 2 else 0) +
    (if flag cw "downtrend_channel" then -2 else 0) +
    (if flag cw "falling_wedge" then 2 else 0) +
    (if flag cw "rising_wedge" then -2 else 0) +
    ((harm.filter (fun p => p.2)).length : ℤ)

/-- `rsi_score` of `analyze` (strategies.py:281-287). -/
def rsiScoreOf (df : List Bar) : ℤ :=
  let r := rsiLast (df.map Bar.close)
  if 30 < r ∧ r < 70 then 1
  else if r < 30 then 2
  else if 70 < r then -2
  else 0

/-- `volume_score` of `analyze` (strategies.py:290). -/
def volumeScoreOf (df : List Bar) : ℤ :=
  let vr := volumeRatioOf df
  if 6 / 5 < vr then 1 else if 4 / 5 < vr then 0 else -1

/-- `score` of `analyze` (strategies.py:293). -/
def totalScoreOf (df : List Bar) : ℤ :=
  trendScoreOf df + rsiScoreOf df + volumeScoreOf df + patternScoreOf df

/-- `action` of `analyze` (strategies.py:296). -/
def actionOf (df : List Bar) : String :=
  if 0 < totalScoreOf df then "LONG"
  else if totalScoreOf df < 0 then "SHORT"
  else "NEUTRAL"

/-- The seven optional price levels of an analysis result
(`ideal_entry`, `entry_low`, `entry_high`, `tp1-3`, `sl`), `none` when
the action is NEUTRAL. -/
structure TradeLevels where
  ideal_entry : Option ℚ
  entry_low : Option ℚ
  entry_high : Option ℚ
  tp1 : Option ℚ
  tp2 : Option ℚ
  tp3 : Option ℚ
  sl : Option ℚ
deriving DecidableEq, Repr

/-- The level block of `analyze` (strategies.py:298-314). -/
def levelsOf (cfg : StrategyConfig) (df : List Bar) : TradeLevels :=
  let action := actionOf df
  if action = "LONG" ∨ action = "SHORT" then
    let ideal := ilocNeg (df.map Bar.close) 1
    let atr := calculate_atr df
    let elow := ideal * (1 - cfg.entryRangePct)
    let ehigh := ideal * (1 + cfg.entryRangePct)
    if action = "LONG" then
      ⟨some ideal, some elow, some ehigh,
        some (ideal + atr * cfg.atrMultiplier),
        some (ideal + atr * cfg.atrMultiplier * 2),
        some (ideal + atr * cfg.atrMultiplier * 3),
        some (ideal - atr * cfg.atrMultiplier)⟩
    else
      ⟨some ideal, some elow, some ehigh,
        some (ideal - atr * cfg.atrMultiplier),
        some (ideal - atr * cfg.atrMultiplier * 2),
        some (ideal - atr * cfg.atrMultiplier * 3),
        some (ideal + atr * cfg.atrMultiplier)⟩
  else ⟨none, none, none, none, none, none, none⟩

/-- `{**triangle_patterns, **channel_wedge_patterns, **harmonic_patterns}`
(strategies.py:317). -/
def allPatternsOf (df : List Bar) : List (String × Bool) :=
  dictMerge (dictMerge (detect_triangle_patterns df)
    (detect_channel_wedge_patterns df)) (detect_harmonic_patterns df)

/-- `detected_patterns` (strategies.py:318): the keys whose flag is
true, in dict order. -/
def detectedPatternsOf (df : List Bar) : List String :=
  ((allPatternsOf df).filter (fun p => p.2)).map (fun p => p.1)

/-- The result dict of `analyze` (strategies.py:321-345). -/
structure AnalysisResult where
  action : String
  ideal_entry : Option ℚ
  entry_low : Option ℚ
  entry_high : Option ℚ
  tp1 : Option ℚ
  tp2 : Option ℚ
  tp3 : Option ℚ
  sl : Option ℚ
  current_price : ℚ
  rsi : ℚ
  trend : String
  volume_ratio : ℚ
  score : ℤ
  atr : ℚ
  hh : Bool
  hl : Bool
  lh : Bool
  ll : Bool
  ema_trend : String
  ema_score : ℤ
  pattern_score : ℤ
  detected_patterns : List String
  pattern_details : List (String × Bool)
deriving DecidableEq, Repr

/-- The body of `analyze` once the 50-bar guard has passed
(strategies.py:212-347). Each field is the corresponding entry of the
Python result dict; the helper functions above recompute exactly the
intermediate values the Python body binds once. -/
def analyzeCore (cfg : StrategyConfig) (df : List Bar) : AnalysisResult :=
  let L := levelsOf cfg df
  { action := actionOf df
    ideal_entry := L.ideal_entry
    entry_low := L.entry_low
    entry_high := L.entry_high
    tp1 := L.tp1
    tp2 := L.tp2
    tp3 := L.tp3
    sl := L.sl
    current_price := ilocNeg (df.map Bar.close) 1
    rsi := rsiLast (df.map Bar.close)
    trend := if 0 < trendScoreOf df then "BULLISH"
      else if trendScoreOf df < 0 then "BEARISH" else "NEUTRAL"
    volume_ratio := volumeRatioOf df
    score := totalScoreOf df
    atr := calculate_atr df
    hh := (identify_hh_hl_lh_ll df).1
    hl := (identify_hh_hl_lh_ll df).2.1
    lh := (identify_hh_hl_lh_ll df).2.2.1
    ll := (identify_hh_hl_lh_ll df).2.2.2
    ema_trend := (analyze_ema_cross df).1
    ema_score := (analyze_ema_cross df).2
    pattern_score := patternScoreOf df
    detected_patterns := detectedPatternsOf df
    pattern_details := allPatternsOf df }

/-- `TechnicalAnalysisStrategy.analyze` (strategies.py:207-347):
`None` (absence) below 50 bars, otherwise the result record. -/
def analyze (cfg : StrategyConfig) (df : List Bar) : Option AnalysisResult :=
  if df.length < 50 then none else some (analyzeCore cfg df)

/-- The result dict of `TradingBot.calculate_custom_entry`
(core.py:279-286), minus the symbol string. -/
structure CustomEntryResult where
  entry_price : ℚ
  tp1 : ℚ
  tp2 : ℚ
  tp3 : ℚ
  sl : ℚ
deriving DecidableEq, Repr

/-- `TradingBot.calculate_custom_entry` (core.py:268-291): the fetched
series is passed in as `df` (`None` models a failed fetch). The levels
are computed from `entry_price` and the strategy's ATR alone — the
function never consults any signal's action. -/
def calculate_custom_entry (cfg : StrategyConfig) (df : Option (List Bar))
    (entry_price : ℚ) : Option CustomEntryResult :=
  match df with
  | none => none
  | some d =>
      if 50 ≤ d.length then
        let atr := calculate_atr d
        some ⟨entry_price,
          entry_price + atr * cfg.atrMultiplier,
          entry_price + atr * cfg.atrMultiplier * 2,
          entry_price + atr * cfg.atrMultiplier * 3,
          entry_price - atr * cfg.atrMultiplier⟩
      else none

/-- The TP/SL levels claim C2 describes, built from the spec's words
(§4.5): the action-dependent formulas with `ideal_entry` replaced by the
supplied entry price. Used only to compare the claim against
`calculate_custom_entry`. -/
def claimedCustomLevels (action : String) (entry_price atr mult : ℚ) :
    CustomEntryResult :=
  if action = "LONG" then
    ⟨entry_price,
      entry_price + atr * mult,
      entry_price + atr * mult * 2,
      entry_price + atr * mult * 3,
      entry_price - atr * mult⟩
  else
    ⟨entry_price,
      entry_price - atr * mult,
      entry_price - atr * mult * 2,
      entry_price - atr * mult * 3,
      entry_price + atr * mult⟩

/-- One row of the `positions` table used by `close_position`
(db_handler.py:86-102); timestamps are irrelevant to the claims and
omitted. Tuple indices of the Python row: 0 id, 1 symbol,
2 market_type, 3 action, 4 entry_price, …, 12 status. -/
structure DbPosition where
  id : Nat
  symbol : String
  market_type : String
  action : String
  entry_price : ℚ
  entry_low : ℚ
  entry_high : ℚ
  tp1 : ℚ
  tp2 : ℚ
  tp3 : ℚ
  sl : ℚ
  current_price : ℚ
  status : String
deriving DecidableEq, Repr

/-- One row of `trade_history` (db_handler.py:109-119), timestamp
omitted. -/
structure TradeRecord where
  symbol : String
  market_type : String
  action : String
  entry_price : ℚ
  exit_price : ℚ
  profit_loss : ℚ
  type : String
deriving DecidableEq, Repr

/-- The database state touched by `close_position`. -/
structure DbState where
  positions : List DbPosition
  trade_history : List TradeRecord
deriving DecidableEq, Repr

/-- `DatabaseHandler.close_position` (db_handler.py:342-396):
`SELECT … WHERE id = %s` / `fetchone` is a first-match lookup (ids are
a SERIAL primary key, hence unique); on a hit the P/L is
`close_price - entry` for a LONG and `entry - close_price` otherwise,
one history row is inserted, the row's status becomes `closed` with
`current_price = close_price`, and the call returns `True`; on a miss
it returns `False` with the state unchanged. -/
def close_position (st : DbState) (position_id : Nat) (close_price : ℚ)
    (exit_type : String) : Bool × DbState :=
  match st.positions.find? (fun q => q.id == position_id) with
  | none => (false, st)
  | some p =>
      let profit_loss :=
        if p.action = "LONG" then close_price - p.entry_price
        else p.entry_price - close_price
      let rec0 : TradeRecord :=
        ⟨p.symbol, p.market_type, p.action, p.entry_price, close_price,
          profit_loss, exit_type⟩
      let ps := st.positions.map (fun q =>
        if q.id == position_id then
          { q with status := "closed", current_price := close_price }
        else q)
      (true, ⟨ps, st.trade_history ++ [rec0]⟩)

set_option maxRecDepth 400000

/-- The all-ones flat bar (constant OHLCV test series element). -/
def oneBar : Bar := ⟨1, 1, 1, 1⟩

/-- A 50-bar series with constant OHLC = 1 and a final volume spike
(volume 1 for 49 bars, then 2). -/
def c1df : List Bar := List.replicate 49 (⟨1, 1, 1, 1⟩ : Bar) ++ [⟨1, 1, 1, 2⟩]

/-- A 50-bar series that is identically zero. -/
def zdf : List Bar := List.replicate 50 (⟨0, 0, 0, 0⟩ : Bar)

/-- A strictly decreasing 50-bar series: close goes 100, 99, …, 51 with
high = close + 1, low = close - 1, volume 1. Scores to a SHORT signal
with ATR = 2. -/
def decDf : List Bar :=
  (List.range 50).map (fun i => ⟨(100 : ℚ) - Nat.cast i + 1,
    (100 : ℚ) - Nat.cast i - 1, (100 : ℚ) - Nat.cast i, 1⟩)

/-- A one-position database: a LONG on BTC/USDT entered at 100. -/
def dbStateEx : DbState :=
  ⟨[⟨1, "BTC/USDT", "crypto", "LONG", 100, 98, 102, 103, 106, 109, 97, 100,
    "active"⟩], []⟩

/-- A standard deviation is never below 0.7 of itself: the guard of the
ascending/descending triangle branches can never hold. -/
theorem stdTight_iff_false (xs : List ℚ) : stdTight xs ↔ False := by
  constructor
  · intro h
    unfold stdTight npStd at h
    nlinarith [Real.sqrt_nonneg (((listVariance xs : ℚ) : ℝ))]
  · exact False.elim

/-- `analyze` on a series that passes the 50-bar guard. -/
theorem analyze_eq_some (cfg : StrategyConfig) (df : List Bar)
    (h : ¬ df.length < 50) : analyze cfg df = some (analyzeCore cfg df) := by
  simp [analyze, h]

/-- `tail k` of a constant series is a constant series. -/
theorem lastN_replicate {α : Type} (k n : Nat) (c : α) (h : k ≤ n) :
    lastN k (List.replicate n c) = List.replicate k c := by
  unfold lastN
  rw [List.length_replicate, List.drop_replicate]
  congr 1
  omega

/-- `iloc[-k]` of a constant series is the constant. -/
theorem ilocNeg_replicate (n k : Nat) (c : ℚ) (h1 : 1 ≤ k) (h2 : k ≤ n) :
    ilocNeg (List.replicate n c) k = c := by
  unfold ilocNeg
  rw [List.length_replicate, List.getD_eq_getElem _ _ (by simp; omega)]
  simp

/-- `diff()` of a constant series is identically zero. -/
theorem diffs_replicate (n : Nat) (c : ℚ) :
    diffs (List.replicate n c) = List.replicate (n - 1) 0 := by
  induction n with
  | zero => rfl
  | succ m ih =>
    cases m with
    | zero => rfl
    | succ k =>
      rw [List.replicate_succ]
      rw [show List.replicate (k + 1) c = c :: List.replicate k c from List.replicate_succ c k]
      show (c - c) :: diffs (c :: List.replicate k c) = _
      rw [show c :: List.replicate k c = List.replicate (k + 1) c from (List.replicate_succ c k).symm]
      rw [ih]
      simp [← List.replicate_succ]

/-- The ewm fold keeps numerator = c · denominator on a constant
series (and the denominator positive), for any nonnegative decay. -/
theorem foldl_ewmStep_replicate (a c : ℚ) (ha : 0 ≤ a) :
    ∀ (m : Nat) (p : ℚ × ℚ), p.1 = c * p.2 → 0 < p.2 →
      (List.foldl (ewmStep a) p (List.replicate m c)).1 =
        c * (List.foldl (ewmStep a) p (List.replicate m c)).2 ∧
      0 < (List.foldl (ewmStep a) p (List.replicate m c)).2 := by
  intro m
  induction m with
  | zero => intro p h1 h2; exact ⟨h1, h2⟩
  | succ k ih =>
    intro p h1 h2
    rw [List.replicate_succ, List.foldl_cons]
    exact ih (ewmStep a p c) (by simp [ewmStep, h1]; ring) (by simp [ewmStep]; positivity)

/-- The last ewm mean of a constant series is the constant. -/
theorem ewmMeanLast_replicate (span c : ℚ) (n : Nat) (hn : 1 ≤ n)
    (ha : 0 ≤ 1 - 2 / (span + 1)) :
    ewmMeanLast span (List.replicate n c) = c := by
  obtain ⟨m, rfl⟩ : ∃ m, n = m + 1 := ⟨n - 1, by omega⟩
  rw [List.replicate_succ]
  show (List.foldl (ewmStep (1 - 2 / (span + 1))) (c, 1) (List.replicate m c)).1 /
    (List.foldl (ewmStep (1 - 2 / (span + 1))) (c, 1) (List.replicate m c)).2 = c
  obtain ⟨h1, h2⟩ := foldl_ewmStep_replicate (1 - 2 / (span + 1)) c ha m (c, 1) (by simp) one_pos
  rw [h1, mul_div_cancel_right₀ c (ne_of_gt h2)]

/-- EMA crossover on a constant series: the strict `>` fails on the tie,
so the label is BEARISH with score -1. -/
theorem analyze_ema_cross_replicate (bar : Bar) (n : Nat) (h : 22 ≤ n) :
    analyze_ema_cross (List.replicate n bar) = ("BEARISH", -1) := by
  unfold analyze_ema_cross
  rw [List.length_replicate, if_neg (by omega), List.map_replicate]
  simp only []
  rw [ewmMeanLast_replicate 13 bar.close n (by omega) (by norm_num)]
  rw [ewmMeanLast_replicate 21 bar.close n (by omega) (by norm_num)]
  rw [if_neg (lt_irrefl bar.close)]
  simp

/-- The fallback RSI of a constant series is the neutral 50. -/
theorem rsiLast_replicate (c : ℚ) (n : Nat) :
    rsiLast (List.replicate n c) = 50 := by
  unfold rsiLast
  rw [diffs_replicate]
  simp only []
  rw [List.map_replicate, List.map_replicate]
  norm_num
  rw [show (0 : ℚ) :: List.replicate (n - 1) 0 = List.replicate (n - 1 + 1) (0 : ℚ) from
    (List.replicate_succ 0 (n - 1)).symm]
  unfold lastN
  rw [List.length_replicate, List.drop_replicate, List.sum_replicate]
  simp

/-- Σ of the pointwise product of a list with a constant list. -/
theorem zip_replicate_mul_sum (l : List ℚ) (c : ℚ) :
    ((l.zip (List.replicate l.length c)).map (fun p => p.1 * p.2)).sum = l.sum * c := by
  induction l with
  | nil => simp
  | cons x xs ih =>
    rw [List.length_cons, List.replicate_succ, List.zip_cons_cons, List.map_cons,
      List.sum_cons, ih, List.sum_cons]
    ring

/-- The least-squares slope of a constant series is zero. -/
theorem polyfitSlope_replicate (k : Nat) (c : ℚ) :
    polyfitSlope (List.replicate k c) = 0 := by
  unfold polyfitSlope
  simp only []
  rw [List.length_replicate, List.sum_replicate, nsmul_eq_mul]
  have hlen : (rangeQ k).length = k := by rw [rangeQ, List.length_map, List.length_range]
  rw [show List.replicate k c = List.replicate (rangeQ k).length c from by rw [hlen]]
  rw [zip_replicate_mul_sum]
  have : (k : ℚ) * ((rangeQ k).sum * c) - (rangeQ k).sum * ((k : ℚ) * c) = 0 := by ring
  rw [this, zero_div]

/-- The triangle detector returns its all-false dict on every constant
series (all slopes are zero, so no guard fires; under 40 bars the
length guard returns the same dict). -/
theorem triangle_replicate (bar : Bar) (n : Nat) :
    detect_triangle_patterns (List.replicate n bar) = baseTriangle := by
  unfold detect_triangle_patterns
  split
  · rfl
  · rename_i hlen
    rw [List.length_replicate] at hlen
    simp only []
    rw [List.map_replicate, List.map_replicate,
      lastN_replicate 20 n bar.high (by omega), lastN_replicate 20 n bar.low (by omega),
      polyfitSlope_replicate, polyfitSlope_replicate]
    norm_num [stdTight_iff_false]

/-- The channel/wedge detector flags exactly `ranging_channel` on a
constant series of at least 40 bars. -/
theorem channel_replicate (bar : Bar) (n : Nat) (h : 40 ≤ n) :
    detect_channel_wedge_patterns (List.replicate n bar) =
      [("uptrend_channel", false), ("downtrend_channel", false),
       ("ranging_channel", true), ("rising_wedge", false),
       ("falling_wedge", false)] := by
  unfold detect_channel_wedge_patterns
  rw [List.length_replicate, if_neg (by omega)]
  simp only []
  rw [List.map_replicate, List.map_replicate, List.map_replicate,
    lastN_replicate 20 n bar.high (by omega), lastN_replicate 20 n bar.low (by omega),
    lastN_replicate 20 n bar.close (by omega),
    polyfitSlope_replicate, polyfitSlope_replicate, polyfitSlope_replicate]
  norm_num
  rfl

/-- The harmonic detector on a constant series of at least 50 bars:
`shark` when the constant close is zero (the `NaN` route), `gartley`
otherwise (zero fractional change). -/
theorem harmonic_replicate (bar : Bar) (n : Nat) (h : 50 ≤ n) :
    detect_harmonic_patterns (List.replicate n bar) =
        dictSet baseHarmonic "gartley" true ∨
      detect_harmonic_patterns (List.replicate n bar) =
        dictSet baseHarmonic "shark" true := by
  unfold detect_harmonic_patterns
  rw [List.length_replicate, if_neg (by omega)]
  simp only []
  rw [List.map_replicate, lastN_replicate 50 n bar.close (by omega)]
  by_cases hc : bar.close = 0
  · right
    rw [show (List.replicate 50 bar.close).headD 0 = bar.close from by
      rw [List.replicate_succ]; rfl]
    rw [if_pos hc]
  · left
    rw [show (List.replicate 50 bar.close).headD 0 = bar.close from by
      rw [List.replicate_succ]; rfl]
    rw [if_neg hc]
    rw [ilocNeg_replicate 50 1 bar.close (by omega) (by omega)]
    rw [if_pos (by rw [sub_self, zero_div, abs_zero]; norm_num)]

/-- HH/HL/LH/LL are all false on a constant series (the strict
inequality chains fail). -/
theorem identify_replicate (bar : Bar) (n : Nat) (h : 20 ≤ n) :
    identify_hh_hl_lh_ll (List.replicate n bar) = (false, false, false, false) := by
  unfold identify_hh_hl_lh_ll
  simp only []
  rw [List.map_replicate, List.map_replicate,
    lastN_replicate 20 n bar.high (by omega), lastN_replicate 20 n bar.low (by omega)]
  rw [ilocNeg_replicate 20 1 bar.high (by omega) (by omega),
    ilocNeg_replicate 20 2 bar.high (by omega) (by omega),
    ilocNeg_replicate 20 3 bar.high (by omega) (by omega),
    ilocNeg_replicate 20 1 bar.low (by omega) (by omega),
    ilocNeg_replicate 20 2 bar.low (by omega) (by omega),
    ilocNeg_replicate 20 3 bar.low (by omega) (by omega)]
  have hd : ∀ x : ℚ, decide (x < x ∧ x < x) = false :=
    fun x => decide_eq_false (fun hx => lt_irrefl x hx.1)
  rw [hd bar.high, hd bar.low]
  simp

/-- The volume ratio of a constant series is 1 (by division when the
volume is positive, by the zero-mean guard otherwise). -/
theorem volumeRatio_replicate (bar : Bar) (n : Nat) (h : 20 ≤ n) :
    volumeRatioOf (List.replicate n bar) = 1 := by
  unfold volumeRatioOf
  simp only []
  rw [List.map_replicate, lastN_replicate 20 n bar.volume (by omega),
    List.sum_replicate, nsmul_eq_mul]
  have h20 : ((20 : Nat) : ℚ) * bar.volume / 20 = bar.volume := by
    norm_num
  rw [h20]
  by_cases hv : 0 < bar.volume
  · rw [if_pos hv, ilocNeg_replicate n 1 bar.volume (by omega) (by omega)]
    exact div_self (ne_of_gt hv)
  · rw [if_neg hv]

/-- Trend score of a constant series: no HH/HL/LH/LL, EMA tie gives
BEARISH -1. -/
theorem trendScore_replicate (bar : Bar) (n : Nat) (h : 50 ≤ n) :
    trendScoreOf (List.replicate n bar) = -1 := by
  unfold trendScoreOf
  rw [identify_replicate bar n (by omega), analyze_ema_cross_replicate bar n (by omega)]
  simp

/-- RSI score of a constant series: RSI = 50 lies in (30, 70). -/
theorem rsiScore_replicate (bar : Bar) (n : Nat) :
    rsiScoreOf (List.replicate n bar) = 1 := by
  unfold rsiScoreOf
  rw [List.map_replicate, rsiLast_replicate]
  norm_num

/-- Volume score of a constant series: ratio 1 falls in the middle
band. -/
theorem volumeScore_replicate (bar : Bar) (n : Nat) (h : 50 ≤ n) :
    volumeScoreOf (List.replicate n bar) = 0 := by
  unfold volumeScoreOf
  rw [volumeRatio_replicate bar n (by omega)]
  norm_num

/-- Pattern score of a constant series: only the single harmonic flag
contributes. -/
theorem patternScore_replicate (bar : Bar) (n : Nat) (h : 50 ≤ n) :
    patternScoreOf (List.replicate n bar) = 1 := by
  unfold patternScoreOf
  rw [triangle_replicate, channel_replicate bar n (by omega)]
  rcases harmonic_replicate bar n h with hh | hh <;> rw [hh] <;> decide

/-- Total score of a constant series: -1 + 1 + 0 + 1 = 1. -/
theorem totalScore_replicate (bar : Bar) (n : Nat) (h : 50 ≤ n) :
    totalScoreOf (List.replicate n bar) = 1 := by
  unfold totalScoreOf
  rw [trendScore_replicate bar n h, rsiScore_replicate, volumeScore_replicate bar n h,
    patternScore_replicate bar n h]
  decide

/-- C1 (amended): on a constant (perfectly flat, constant volume
included) series of at least 50 bars, every slope-based pattern flag
except `ranging_channel` is false, `ranging_channel` is true,
volume_ratio = 1, RSI = 50, but the EMA tie scores -1, the in-band RSI
scores +1 and the harmonic bucket scores +1, so score = 1 and
action = LONG (not NEUTRAL/0 as the original claim states). -/
theorem claim_C1_flat_amended (cfg : StrategyConfig) (bar : Bar) (n : Nat)
    (hn : 50 ≤ n) (r : AnalysisResult)
    (hr : analyze cfg (List.replicate n bar) = some r) :
    flag r.pattern_details "symmetrical_triangle" = false ∧
    flag r.pattern_details "ascending_triangle" = false ∧
    flag r.pattern_details "descending_triangle" = false ∧
    flag r.pattern_details "broadening_ascending" = false ∧
    flag r.pattern_details "broadening_descending" = false ∧
    flag r.pattern_details "uptrend_channel" = false ∧
    flag r.pattern_details "downtrend_channel" = false ∧
    flag r.pattern_details "rising_wedge" = false ∧
    flag r.pattern_details "falling_wedge" = false ∧
    flag r.pattern_details "ranging_channel" = true ∧
    r.volume_ratio = 1 ∧ r.rsi = 50 ∧ r.score = 1 ∧ r.action = "LONG" := by
  unfold analyze at hr
  rw [if_neg (by rw [List.length_replicate]; omega)] at hr
  injection hr with hr
  subst hr
  have hpat : allPatternsOf (List.replicate n bar) =
      dictMerge (dictMerge baseTriangle
        [("uptrend_channel", false), ("downtrend_channel", false),
         ("ranging_channel", true), ("rising_wedge", false),
         ("falling_wedge", false)]) (dictSet baseHarmonic "gartley" true) ∨
      allPatternsOf (List.replicate n bar) =
      dictMerge (dictMerge baseTriangle
        [("uptrend_channel", false), ("downtrend_channel", false),
         ("ranging_channel", true), ("rising_wedge", false),
         ("falling_wedge", false)]) (dictSet baseHarmonic "shark" true) := by
    unfold allPatternsOf
    rw [triangle_replicate, channel_replicate bar n (by omega)]
    rcases harmonic_replicate bar n hn with hh | hh <;> rw [hh]
    · left; rfl
    · right; rfl
  have hdetails : (analyzeCore cfg (List.replicate n bar)).pattern_details =
      allPatternsOf (List.replicate n bar) := rfl
  refine ⟨?_, ?_, ?_, ?_, ?_, ?_, ?_, ?_, ?_, ?_, ?_, ?_, ?_, ?_⟩
  · rw [hdetails]; rcases hpat with hp | hp <;> rw [hp] <;> decide
  · rw [hdetails]; rcases hpat with hp | hp <;> rw [hp] <;> decide
  · rw [hdetails]; rcases hpat with hp | hp <;> rw [hp] <;> decide
  · rw [hdetails]; rcases hpat with hp | hp <;> rw [hp] <;> decide
  · rw [hdetails]; rcases hpat with hp | hp <;> rw [hp] <;> decide
  · rw [hdetails]; rcases hpat with hp | hp <;> rw [hp] <;> decide
  · rw [hdetails]; rcases hpat with hp | hp <;> rw [hp] <;> decide
  · rw [hdetails]; rcases hpat with hp | hp <;> rw [hp] <;> decide
  · rw [hdetails]; rcases hpat with hp | hp <;> rw [hp] <;> decide
  · rw [hdetails]; rcases hpat with hp | hp <;> rw [hp] <;> decide
  · show volumeRatioOf (List.replicate n bar) = 1
    exact volumeRatio_replicate bar n (by omega)
  · show rsiLast ((List.replicate n bar).map Bar.close) = 50
    rw [List.map_replicate, rsiLast_replicate]
  · show totalScoreOf (List.replicate n bar) = 1
    exact totalScore_replicate bar n hn
  · show actionOf (List.replicate n bar) = "LONG"
    unfold actionOf
    rw [totalScore_replicate bar n hn]
    rfl

/-- C1 counterexample: a series with constant OHLC (volume varying)
on which the original claim's conjunction fails: `ranging_channel` is
true, volume_ratio = 40/21 ≠ 1, action = LONG ≠ NEUTRAL and
score = 2 ≠ 0. -/
theorem claim_C1_counterexample :
    analyze defaultCfg c1df = some (analyzeCore defaultCfg c1df) ∧
    flag (analyzeCore defaultCfg c1df).pattern_details "ranging_channel" = true ∧
    (analyzeCore defaultCfg c1df).volume_ratio = 40 / 21 ∧
    (analyzeCore defaultCfg c1df).action = "LONG" ∧
    (analyzeCore defaultCfg c1df).score = 2 := by
  refine ⟨analyze_eq_some _ _ (by decide), ?_, ?_, ?_, ?_⟩ <;> with_unfolding_all decide

/-- C1 witness: the amended claim evaluated on the all-ones flat
series. -/
theorem claim_C1_witness :
    flag (analyzeCore defaultCfg (List.replicate 50 oneBar)).pattern_details
      "ranging_channel" = true ∧
    (analyzeCore defaultCfg (List.replicate 50 oneBar)).score = 1 ∧
    (analyzeCore defaultCfg (List.replicate 50 oneBar)).action = "LONG" := by
  obtain ⟨-, -, -, -, -, -, -, -, -, h10, -, -, h13, h14⟩ :=
    claim_C1_flat_amended defaultCfg oneBar 50 (by norm_num) _
      (analyze_eq_some _ _ (by decide))
  exact ⟨h10, h13, h14⟩

/-- C3: the reported score is exactly the sum of the four component
scores, and the action is the sign-dispatch on that score. -/
theorem claim_C3_score_action (cfg : StrategyConfig) (df : List Bar)
    (r : AnalysisResult) (hr : analyze cfg df = some r) :
    r.score = trendScoreOf df + rsiScoreOf df + volumeScoreOf df + patternScoreOf df ∧
    r.action = (if 0 < r.score then "LONG" else if r.score < 0 then "SHORT" else "NEUTRAL") := by
  unfold analyze at hr
  split at hr
  · exact absurd hr (by simp)
  · injection hr with hr
    subst hr
    exact ⟨rfl, rfl⟩

/-- C3 witness: the decomposition evaluated on the volume-spike flat
series. -/
theorem claim_C3_witness :
    (analyzeCore defaultCfg c1df).score =
      trendScoreOf c1df + rsiScoreOf c1df + volumeScoreOf c1df + patternScoreOf c1df ∧
    (analyzeCore defaultCfg c1df).action =
      (if 0 < (analyzeCore defaultCfg c1df).score then "LONG"
       else if (analyzeCore defaultCfg c1df).score < 0 then "SHORT" else "NEUTRAL") :=
  claim_C3_score_action defaultCfg c1df _ (analyze_eq_some _ _ (by decide))

/-- C4: any series under 50 bars yields absence (the embedding is a
total function, so no exception is possible). -/
theorem claim_C4_short_series_none (cfg : StrategyConfig) (df : List Bar)
    (h : df.length < 50) : analyze cfg df = none := by
  simp [analyze, h]

/-- C4 witness: the empty series. -/
theorem claim_C4_witness : analyze defaultCfg [] = none :=
  claim_C4_short_series_none defaultCfg [] (by decide)

/-- C5 (amended): for a LONG analysis the TP/SL formulas hold as
stated, and the entry band is strict around the ideal entry provided
the entry range is positive AND the ideal entry price is positive (the
original claim omits the positivity of the price, without which the
band degenerates). -/
theorem claim_C5_long_levels_amended (cfg : StrategyConfig) (df : List Bar)
    (r : AnalysisResult) (e : ℚ) (hr : analyze cfg df = some r)
    (ha : r.action = "LONG") (he : r.ideal_entry = some e) :
    r.tp1 = some (e + r.atr * cfg.atrMultiplier) ∧
    r.tp2 = some (e + r.atr * cfg.atrMultiplier * 2) ∧
    r.tp3 = some (e + r.atr * cfg.atrMultiplier * 3) ∧
    r.sl = some (e - r.atr * cfg.atrMultiplier) ∧
    r.entry_low = some (e * (1 - cfg.entryRangePct)) ∧
    r.entry_high = some (e * (1 + cfg.entryRangePct)) ∧
    (0 < cfg.entryRangePct → 0 < e →
      e * (1 - cfg.entryRangePct) < e ∧ e < e * (1 + cfg.entryRangePct)) := by
  unfold analyze at hr
  split at hr
  · exact absurd hr (by simp)
  · injection hr with hr
    subst hr
    have hact : actionOf df = "LONG" := ha
    have hlev : levelsOf cfg df =
        ⟨some (ilocNeg (df.map Bar.close) 1),
          some (ilocNeg (df.map Bar.close) 1 * (1 - cfg.entryRangePct)),
          some (ilocNeg (df.map Bar.close) 1 * (1 + cfg.entryRangePct)),
          some (ilocNeg (df.map Bar.close) 1 + calculate_atr df * cfg.atrMultiplier),
          some (ilocNeg (df.map Bar.close) 1 + calculate_atr df * cfg.atrMultiplier * 2),
          some (ilocNeg (df.map Bar.close) 1 + calculate_atr df * cfg.atrMultiplier * 3),
          some (ilocNeg (df.map Bar.close) 1 - calculate_atr df * cfg.atrMultiplier)⟩ := by
      unfold levelsOf
      rw [hact, if_pos (Or.inl rfl), if_pos rfl]
    have hie : (levelsOf cfg df).ideal_entry = some e := he
    rw [hlev] at hie
    injection hie with hie
    subst hie
    have htp1 : (analyzeCore cfg df).tp1 = (levelsOf cfg df).tp1 := rfl
    have htp2 : (analyzeCore cfg df).tp2 = (levelsOf cfg df).tp2 := rfl
    have htp3 : (analyzeCore cfg df).tp3 = (levelsOf cfg df).tp3 := rfl
    have hsl : (analyzeCore cfg df).sl = (levelsOf cfg df).sl := rfl
    have helo : (analyzeCore cfg df).entry_low = (levelsOf cfg df).entry_low := rfl
    have hehi : (analyzeCore cfg df).entry_high = (levelsOf cfg df).entry_high := rfl
    refine ⟨?_, ?_, ?_, ?_, ?_, ?_, ?_⟩
    · rw [htp1, hlev]; rfl
    · rw [htp2, hlev]; rfl
    · rw [htp3, hlev]; rfl
    · rw [hsl, hlev]; rfl
    · rw [helo, hlev]
    · rw [hehi, hlev]
    · intro hp hepos
      constructor <;> nlinarith

/-- C5 counterexample: the all-zero series scores to a LONG with
ideal_entry = 0, where entry_low = 0 = ideal_entry, so the claimed
strict band `entry_low < E` fails despite entry_range_pct > 0. -/
theorem claim_C5_counterexample :
    analyze defaultCfg zdf = some (analyzeCore defaultCfg zdf) ∧
    (analyzeCore defaultCfg zdf).action = "LONG" ∧
    0 < defaultCfg.entryRangePct ∧
    (analyzeCore defaultCfg zdf).ideal_entry = some 0 ∧
    (analyzeCore defaultCfg zdf).entry_low = some 0 ∧
    ¬((0 : ℚ) < 0) := by
  refine ⟨analyze_eq_some _ _ (by decide), ?_, by norm_num [defaultCfg], ?_, ?_, by norm_num⟩
    <;> with_unfolding_all decide

/-- C5 witness: the amended claim evaluated on the all-ones flat
series (a LONG with ideal entry 1 > 0). -/
theorem claim_C5_witness :
    (analyzeCore defaultCfg (List.replicate 50 oneBar)).tp1 =
      some (1 + (analyzeCore defaultCfg (List.replicate 50 oneBar)).atr *
        defaultCfg.atrMultiplier) ∧
    (1 : ℚ) * (1 - defaultCfg.entryRangePct) < 1 ∧
    (1 : ℚ) < 1 * (1 + defaultCfg.entryRangePct) := by
  obtain ⟨h1, -, -, -, -, -, h7⟩ :=
    claim_C5_long_levels_amended defaultCfg (List.replicate 50 oneBar) _ 1
      (analyze_eq_some _ _ (by decide))
      (by with_unfolding_all decide) (by with_unfolding_all decide)
  obtain ⟨hb1, hb2⟩ := h7 (by norm_num [defaultCfg]) (by norm_num)
  exact ⟨h1, hb1, hb2⟩

/-- C2 (amended): for any fetched series of at least 50 bars and any
supplied entry price, the custom-entry recompute returns the
LONG-direction formulas regardless of any signal's action:
TPn = P + ATR·mult·n and SL = P − ATR·mult (core.py:282-285 hard-codes
`+` for TPs and `-` for SL and never reads an action). -/
theorem claim_C2_custom_entry_amended (cfg : StrategyConfig) (d : List Bar)
    (P : ℚ) (h : 50 ≤ d.length) :
    calculate_custom_entry cfg (some d) P =
      some ⟨P, P + calculate_atr d * cfg.atrMultiplier,
        P + calculate_atr d * cfg.atrMultiplier * 2,
        P + calculate_atr d * cfg.atrMultiplier * 3,
        P - calculate_atr d * cfg.atrMultiplier⟩ := by
  simp [calculate_custom_entry, h]

/-- C2 counterexample: `decDf` analyses to a SHORT signal and has
ATR = 2, yet the custom-entry recompute at entry price 10 returns the
LONG-form levels (12, 14, 16 / SL 8), not the SHORT-form levels the
claim prescribes (8, 6, 4 / SL 12). -/
theorem claim_C2_counterexample :
    analyze defaultCfg decDf = some (analyzeCore defaultCfg decDf) ∧
    (analyzeCore defaultCfg decDf).action = "SHORT" ∧
    calculate_custom_entry defaultCfg (some decDf) 10 = some ⟨10, 12, 14, 16, 8⟩ ∧
    claimedCustomLevels "SHORT" 10 (calculate_atr decDf) defaultCfg.atrMultiplier =
      ⟨10, 8, 6, 4, 12⟩ ∧
    calculate_custom_entry defaultCfg (some decDf) 10 ≠
      some (claimedCustomLevels "SHORT" 10 (calculate_atr decDf)
        defaultCfg.atrMultiplier) := by
  refine ⟨analyze_eq_some _ _ (by decide), ?_, ?_, ?_, ?_⟩ <;> with_unfolding_all decide

/-- C2 witness: the amended claim evaluated on `decDf` at entry price
10. -/
theorem claim_C2_witness :
    calculate_custom_entry defaultCfg (some decDf) 10 =
      some ⟨10, 10 + calculate_atr decDf * defaultCfg.atrMultiplier,
        10 + calculate_atr decDf * defaultCfg.atrMultiplier * 2,
        10 + calculate_atr decDf * defaultCfg.atrMultiplier * 3,
        10 - calculate_atr decDf * defaultCfg.atrMultiplier⟩ :=
  claim_C2_custom_entry_amended defaultCfg decDf 10 (by decide)

/-- Every true range after the first bar is nonnegative when each bar
has high ≥ low. -/
theorem trAux_nonneg (prev : Bar) (bs : List Bar)
    (h : ∀ b ∈ bs, b.low ≤ b.high) : ∀ x ∈ trAux prev bs, 0 ≤ x := by
  induction bs generalizing prev with
  | nil => intro x hx; exact absurd hx (by simp [trAux])
  | cons b rest ih =>
    intro x hx
    rw [trAux] at hx
    rcases List.mem_cons.mp hx with rfl | hx
    · exact le_trans (sub_nonneg.mpr (h b (List.mem_cons_self b rest)))
        (le_max_left _ _)
    · exact ih b (fun q hq => h q (List.mem_cons_of_mem b hq)) x hx

/-- Every true range is nonnegative when each bar has high ≥ low. -/
theorem trList_nonneg (df : List Bar) (h : ∀ b ∈ df, b.low ≤ b.high) :
    ∀ x ∈ trList df, 0 ≤ x := by
  cases df with
  | nil => intro x hx; exact absurd hx (by simp [trList])
  | cons b bs =>
    intro x hx
    rw [trList] at hx
    rcases List.mem_cons.mp hx with rfl | hx
    · exact sub_nonneg.mpr (h b (List.mem_cons_self b bs))
    · exact trAux_nonneg b bs (fun q hq => h q (List.mem_cons_of_mem b hq)) x hx

/-- C8: the ATR is exactly 0 under 14 bars, and nonnegative on any
non-degenerate series (high ≥ low bar-wise) of at least 14 bars. -/
theorem claim_C8_atr (df : List Bar) :
    (df.length < 14 → calculate_atr df = 0) ∧
    (14 ≤ df.length → (∀ b ∈ df, b.low ≤ b.high) → 0 ≤ calculate_atr df) := by
  constructor
  · intro h
    rw [calculate_atr, if_pos h]
  · intro h hb
    rw [calculate_atr, if_neg (by omega)]
    refine div_nonneg (List.sum_nonneg ?_) (by norm_num)
    intro x hx
    exact trList_nonneg df hb x (List.drop_subset _ _ hx)

/-- C8 witness: the empty series gives ATR 0; a 14-bar constant series
gives a nonnegative ATR. -/
theorem claim_C8_witness :
    calculate_atr [] = 0 ∧ 0 ≤ calculate_atr (List.replicate 14 oneBar) :=
  ⟨(claim_C8_atr []).1 (by decide),
   (claim_C8_atr (List.replicate 14 oneBar)).2 (by decide)
     (by intro b hb; rw [List.eq_of_mem_replicate hb]; norm_num [oneBar])⟩

/-- C6: for any series of at least 50 bars the harmonic detector sets
exactly one of the five flags (the `if`/`elif`/`else` chain is
exclusive and exhaustive, including the zero-first-close `NaN` route);
under 50 bars it returns the all-false dict. -/
theorem claim_C6_harmonic_exclusive (df : List Bar) :
    (50 ≤ df.length →
      ((detect_harmonic_patterns df).filter (fun p => p.2)).length = 1) ∧
    (df.length < 50 → detect_harmonic_patterns df = baseHarmonic) := by
  constructor
  · intro h
    unfold detect_harmonic_patterns
    rw [if_neg (by omega)]
    simp only []
    split_ifs <;> decide
  · intro h
    unfold detect_harmonic_patterns
    rw [if_pos h]

/-- C6 witness: exactly one harmonic flag on the 50-bar flat series;
all five false on the empty series. -/
theorem claim_C6_witness :
    ((detect_harmonic_patterns c1df).filter (fun p => p.2)).length = 1 ∧
    detect_harmonic_patterns [] = baseHarmonic :=
  ⟨(claim_C6_harmonic_exclusive c1df).1 (by decide),
   (claim_C6_harmonic_exclusive []).2 (by decide)⟩

/-- C7: closing an existing position computes the action-directed
P/L, appends exactly one history record carrying it, marks every row
with that id closed and returns true; closing an unknown id returns
false and leaves the state unchanged. The sign corollaries of the
claim are included: a LONG closed above entry profits, a SHORT closed
above entry loses. -/
theorem claim_C7_close_position (st : DbState) (pid : Nat) (cp : ℚ)
    (et : String) :
    (∀ p, st.positions.find? (fun q => q.id == pid) = some p →
      (close_position st pid cp et).1 = true ∧
      (close_position st pid cp et).2.trade_history =
        st.trade_history ++ [⟨p.symbol, p.market_type, p.action, p.entry_price, cp,
          if p.action = "LONG" then cp - p.entry_price else p.entry_price - cp, et⟩] ∧
      (∀ q ∈ (close_position st pid cp et).2.positions, q.id = pid →
        q.status = "closed") ∧
      (p.action = "LONG" → p.entry_price < cp →
        0 < (if p.action = "LONG" then cp - p.entry_price else p.entry_price - cp)) ∧
      (p.action ≠ "LONG" → p.entry_price < cp →
        (if p.action = "LONG" then cp - p.entry_price else p.entry_price - cp) < 0)) ∧
    (st.positions.find? (fun q => q.id == pid) = none →
      close_position st pid cp et = (false, st)) := by
  constructor
  · intro p hp
    refine ⟨?_, ?_, ?_, ?_, ?_⟩
    · rw [close_position, hp]
    · rw [close_position, hp]
    · intro q hq hid
      rw [close_position, hp] at hq
      simp only [] at hq
      obtain ⟨q0, hq0, hq0eq⟩ := List.mem_map.mp hq
      by_cases hmatch : q0.id == pid
      · rw [if_pos hmatch] at hq0eq
        rw [← hq0eq]
      · rw [if_neg hmatch] at hq0eq
        subst hq0eq
        exact absurd (by simpa using hid) (by simpa using hmatch)
    · intro hlong hlt
      rw [if_pos hlong]
      linarith
    · intro hshort hlt
      rw [if_neg hshort]
      linarith
  · intro hp
    rw [close_position, hp]

/-- C7 witness: closing the LONG at 110 succeeds, appends the record
with P/L = 10 > 0 and marks the position closed. -/
theorem claim_C7_witness :
    (close_position dbStateEx 1 110 "tp1").1 = true ∧
    (close_position dbStateEx 1 110 "tp1").2.trade_history =
      [⟨"BTC/USDT", "crypto", "LONG", 100, 110, 10, "tp1"⟩] ∧
    (∀ q ∈ (close_position dbStateEx 1 110 "tp1").2.positions, q.id = 1 →
      q.status = "closed") ∧
    (0 : ℚ) < 10 := by
  obtain ⟨h1, h2, h3, h4, -⟩ :=
    (claim_C7_close_position dbStateEx 1 110 "tp1").1
      ⟨1, "BTC/USDT", "crypto", "LONG", 100, 98, 102, 103, 106, 109, 97, 100,
        "active"⟩ (by with_unfolding_all decide)

  refine ⟨h1, ?_, h3, ?_⟩
  · rw [h2]
    with_unfolding_all decide
  · have := h4 rfl (by norm_num)
    rw [if_pos rfl] at this
    norm_num

/-- Membership after a dict assignment: either an untouched entry or
the new binding. -/
theorem mem_dictSet {p : String × Bool} {d : List (String × Bool)}
    {k : String} {v : Bool} (h : p ∈ dictSet d k v) : p ∈ d ∨ p = (k, v) := by
  induction d with
  | nil =>
    right
    simpa [dictSet] using h
  | cons q rest ih =>
    rw [dictSet] at h
    split at h
    · rcases List.mem_cons.mp h with rfl | h
      · exact Or.inr rfl
      · exact Or.inl (List.mem_cons_of_mem q h)
    · rcases List.mem_cons.mp h with rfl | h
      · exact Or.inl (List.mem_cons_self _ _)
      · rcases ih h with h | h
        · exact Or.inl (List.mem_cons_of_mem q h)
        · exact Or.inr h

/-- A property preserved by dict assignment. -/
theorem dictSet_entryspec {P : String × Bool → Prop} {d : List (String × Bool)}
    {k : String} {v : Bool} (hd : ∀ q ∈ d, P q) (hk : P (k, v)) :
    ∀ q ∈ dictSet d k v, P q := by
  intro q hq
  rcases mem_dictSet hq with h | rfl
  · exact hd q h
  · exact hk

/-- A property preserved by dict merge. -/
theorem dictMerge_entryspec {P : String × Bool → Prop}
    {a b : List (String × Bool)} (ha : ∀ q ∈ a, P q) (hb : ∀ q ∈ b, P q) :
    ∀ q ∈ dictMerge a b, P q := by
  induction b generalizing a with
  | nil => exact ha
  | cons q0 rest ih =>
    intro q hq
    rw [dictMerge, List.foldl_cons] at hq
    exact ih
      (dictSet_entryspec ha (by
        have := hb q0 (List.mem_cons_self q0 rest)
        simpa using this))
      (fun q hq' => hb q (List.mem_cons_of_mem q0 hq')) q hq

/-- Every entry of the triangle dict keyed `broadening_descending` is
false: the detector never assigns that key (line 126 of the source
assigns the misspelt `broadending_descending` instead). -/
theorem triangle_bd_entries (df : List Bar) :
    ∀ q ∈ detect_triangle_patterns df,
      q.1 = "broadening_descending" → q.2 = false := by
  unfold detect_triangle_patterns
  split
  · decide
  · simp only []
    split_ifs <;> (repeat' apply dictSet_entryspec) <;> decide

/-- Every entry of the channel/wedge dict has a channel/wedge key. -/
theorem channel_entries (df : List Bar) :
    ∀ q ∈ detect_channel_wedge_patterns df,
      q.1 = "broadening_descending" → q.2 = false := by
  unfold detect_channel_wedge_patterns
  split
  · decide
  · simp only []
    split_ifs <;> (repeat' apply dictSet_entryspec) <;> decide

/-- Every entry of the harmonic dict has a harmonic key. -/
theorem harmonic_entries (df : List Bar) :
    ∀ q ∈ detect_harmonic_patterns df,
      q.1 = "broadening_descending" → q.2 = false := by
  unfold detect_harmonic_patterns
  split
  · decide
  · simp only []
    split_ifs <;> (repeat' apply dictSet_entryspec) <;> decide

/-- C9: the declared `broadening_descending` key of the triangle dict
is false for every input (line 126 of the source assigns the misspelt
`broadending_descending` key instead), and consequently no analysis
ever lists `broadening_descending` among its detected patterns. -/
theorem claim_C9_broadening_descending (df : List Bar) :
    List.lookup "broadening_descending" (detect_triangle_patterns df) =
      some false ∧
    (∀ cfg r, analyze cfg df = some r →
      "broadening_descending" ∉ r.detected_patterns) := by
  constructor
  · unfold detect_triangle_patterns
    split
    · decide
    · simp only []
      split_ifs <;> decide
  · intro cfg r hr hmem
    unfold analyze at hr
    split at hr
    · exact absurd hr (by simp)
    · injection hr with hr
      subst hr
      have hmem' : "broadening_descending" ∈ detectedPatternsOf df := hmem
      unfold detectedPatternsOf at hmem'
      obtain ⟨p, hpfilter, hpfst⟩ := List.mem_map.mp hmem'
      obtain ⟨hpmem, hptrue⟩ := List.mem_filter.mp hpfilter
      have hfalse := dictMerge_entryspec
        (dictMerge_entryspec (triangle_bd_entries df) (channel_entries df))
        (harmonic_entries df) p hpmem hpfst
      rw [hfalse] at hptrue
      exact absurd hptrue (by decide)

/-- C9 witness: evaluated on the volume-spike flat series. -/
theorem claim_C9_witness :
    List.lookup "broadening_descending" (detect_triangle_patterns c1df) =
      some false ∧
    "broadening_descending" ∉ (analyzeCore defaultCfg c1df).detected_patterns :=
  ⟨(claim_C9_broadening_descending c1df).1,
   (claim_C9_broadening_descending c1df).2 defaultCfg _
     (analyze_eq_some _ _ (by decide))⟩

/-- C10: the ascending/descending triangle flags are false on every
input: their guard compares np.std of the window against 0.7 times the
same np.std, which no nonnegative standard deviation satisfies
(`stdTight_iff_false`), so the +3 and -3 triangle contributions to
pattern_score are unreachable. -/
theorem claim_C10_triangle_unreachable (df : List Bar) :
    List.lookup "ascending_triangle" (detect_triangle_patterns df) =
      some false ∧
    List.lookup "descending_triangle" (detect_triangle_patterns df) =
      some false := by
  unfold detect_triangle_patterns
  split
  · exact ⟨by decide, by decide⟩
  · simp only []
    norm_num [stdTight_iff_false]
    split_ifs <;> exact ⟨by decide, by decide⟩
